/-
  A shallow embedding, in Lean 4, of the data-loading and aggregation logic of
  `src/app.py` (a Streamlit TMS reporting dashboard), together with theorems
  settling the specification claims about it.

  The embedding covers:
  * `safe_date_conversion` (app.py lines 109-117): Excel-serial / generic date
    normalization over typed columns;
  * `load_tms_data` (app.py lines 121-220): per-sheet processing of the
    uploaded workbook into the `data` mapping;
  * the "Volume per SVC" row scanners building `service_volumes` and
    `country_volumes` (app.py lines 161-188);
  * the cost-sales column renaming (app.py lines 199-212) and the
    `country_financials` / `total_revenue` aggregation (app.py lines 373-379
    and 579-586).

  Modelling conventions: machine floats are modelled as exact rationals,
  pandas missing values (NaN / NaT) as an explicit `null` cell, Python
  dictionaries as insertion-ordered association lists, and Python exceptions
  as `Except Unit`.
-/
import Mathlib

deriving instance DecidableEq for Except

namespace TMS

/-! ### Proleptic-Gregorian calendar arithmetic

Day counts are relative to 1970-01-01 (day 0), as in pandas timestamps.
`daysFromCivil` and `civilFromDays` are the standard era-based conversion
algorithms; integer division is C-style truncation, matching `Int./`. -/

def daysFromCivil (y m d : Int) : Int :=
  let y := if m ≤ 2 then y - 1 else y
  let era := (if 0 ≤ y then y else y - 399) / 400
  let yoe := y - era * 400
  let mp := if 2 < m then m - 3 else m + 9
  let doy := (153 * mp + 2) / 5 + d - 1
  let doe := yoe * 365 + yoe / 4 - yoe / 100 + doy
  era * 146097 + doe - 719468

def civilFromDays (z0 : Int) : Int × Int × Int :=
  let z := z0 + 719468
  let era := (if 0 ≤ z then z else z - 146096) / 146097
  let doe := z - era * 146097
  let yoe := (doe - doe / 1460 + doe / 36524 - doe / 146096) / 365
  let y := yoe + era * 400
  let doy := doe - (365 * yoe + yoe / 4 - yoe / 100)
  let mp := (5 * doy + 2) / 153
  let d := doy - (153 * mp + 2) / 5 + 1
  let m := if mp < 10 then mp + 3 else mp - 9
  (if m ≤ 2 then y + 1 else y, m, d)

/-! ### Cells, dtypes and columns (the pandas data model)

A cell is a number, a string, a timestamp (fractional days since 1970-01-01),
or missing (`null`, modelling NaN / NaT / None).  A pandas `Series` is a
dtype together with its cells. -/

inductive CellVal where
  | num : ℚ → CellVal
  | str : String → CellVal
  | dt : ℚ → CellVal
  | null : CellVal
  deriving DecidableEq

inductive Dtype where
  | int64
  | float64
  | datetime64
  | object
  | unsupported
  deriving DecidableEq

structure Column where
  dtype : Dtype
  cells : List CellVal
  deriving DecidableEq

/-- `c` is a timestamp or missing — the only cell shapes a `datetime64`
column can hold. -/
def isDtOrNull : CellVal → Bool
  | .dt _ => true
  | .null => true
  | _ => false

def isIntCell : CellVal → Bool
  | .num q => q.den == 1
  | _ => false

def isNumOrNull : CellVal → Bool
  | .num _ => true
  | .null => true
  | _ => false

/-- Pandas dtype inference for a column of cells: an all-integer column is
`int64`; numbers mixed with NaN are `float64`; timestamps (with NaT) are
`datetime64[ns]`; anything mixed is `object`. -/
def inferDtype (cells : List CellVal) : Dtype :=
  if cells.all isIntCell then .int64
  else if cells.all isNumOrNull then .float64
  else if cells.all isDtOrNull then .datetime64
  else .object

/-! ### Python string / float primitives used by the scanners -/

/-- Python `str.strip()`: drop leading and trailing whitespace. -/
def pyStrip (s : String) : String :=
  ⟨((s.data.dropWhile Char.isWhitespace).reverse.dropWhile Char.isWhitespace).reverse⟩

/-- Decimal digits to a natural number. -/
def digitsVal (cs : List Char) : Nat :=
  cs.foldl (fun a c => 10 * a + (c.toNat - 48)) 0

/-- Python `float(s)` on a decimal string: optional sign, then digits with at
most one decimal point (`"5"`, `"5."`, `".5"`, `"3.25"`); anything else raises
`ValueError`, modelled as `none`. -/
def parseFloat (s : String) : Option ℚ :=
  let core : List Char → Option ℚ := fun body =>
    let ip := body.takeWhile (fun c => c != '.')
    match body.dropWhile (fun c => c != '.') with
    | [] => if ip ≠ [] ∧ ip.all Char.isDigit then some (digitsVal ip) else none
    | _ :: fp =>
        if (ip ≠ [] ∨ fp ≠ []) ∧ ip.all Char.isDigit ∧ fp.all Char.isDigit then
          some ((digitsVal ip : ℚ) + (digitsVal fp : ℚ) / (10 : ℚ) ^ fp.length)
        else none
  match (pyStrip s).data with
  | '-' :: rest => (core rest).map (fun q => -q)
  | '+' :: rest => core rest
  | cs => core cs

/-- Python `str()` of a numeric cell.  Only its use as a dictionary key
matters to the claims; the exact digit sequence is immaterial, but like the
real `repr` it always starts with a digit or a sign, never with letters. -/
def pyStrNum (q : ℚ) : String :=
  if q.den = 1 then toString q.num else toString q.num ++ "/" ++ toString q.den

/-- Python `str(cell)`: strings unchanged, numbers via their repr, timestamps
via a `Timestamp(...)` form, NaN prints as `"nan"`. -/
def pyStrCell : CellVal → String
  | .str s => s
  | .num q => pyStrNum q
  | .dt t => "Timestamp(" ++ pyStrNum t ++ ")"
  | .null => "nan"

/-! ### `safe_date_conversion` (app.py lines 109-117)

```python
def safe_date_conversion(date_series):
    try:
        if date_series.dtype in ['int64', 'float64']:
            return pd.to_datetime(date_series, origin='1899-12-30', unit='D', errors='coerce')
        else:
            return pd.to_datetime(date_series, errors='coerce')
    except:
        return date_series
```
-/

/-- The day number of the legacy spreadsheet epoch 1899-12-30 (the string
passed as `origin=`), i.e. -25569 relative to 1970-01-01. -/
def excelOrigin : Int := daysFromCivil 1899 12 30

/-- One cell of `pd.to_datetime(series, origin='1899-12-30', unit='D',
errors='coerce')`: a number is a day count from the epoch; everything else
coerces to NaT. -/
def toDatetimeSerialCell : CellVal → CellVal
  | .num q => .dt ((excelOrigin : ℚ) + q)
  | _ => .null

/-- Generic calendar-string parsing (`dateutil`), modelled for ISO
`YYYY-MM-DD` strings; unparseable strings give `none`. -/
def parseDateString (s : String) : Option ℚ :=
  match ((pyStrip s).splitOn ("-")).map String.toNat? with
  | [some y, some m, some d] =>
      if 1 ≤ m ∧ m ≤ 12 ∧ 1 ≤ d ∧ d ≤ 31 then
        some ((daysFromCivil (y : Int) (m : Int) (d : Int) : Int) : ℚ)
      else none
  | _ => none

def nsPerDay : ℚ := 86400000000000

/-- One cell of `pd.to_datetime(series, errors='coerce')`: timestamps pass
through, strings are parsed (unparseable becomes NaT), bare numbers are
nanoseconds since 1970-01-01 (the pandas default unit), NaN becomes NaT. -/
def toDatetimeGenericCell : CellVal → CellVal
  | .dt t => .dt t
  | .str s =>
      match parseDateString s with
      | some t => .dt t
      | none => .null
  | .num q => .dt (q / nsPerDay)
  | .null => .null

/-- The `try:` body of `safe_date_conversion`: the `dtype in
['int64','float64']` branch converts day serials; otherwise
`pd.to_datetime(..., errors='coerce')` runs, which raises (despite the
coercion) on a column whose dtype it cannot interpret at all. -/
def safe_date_conversion_body (col : Column) : Except Unit Column :=
  if col.dtype = .int64 ∨ col.dtype = .float64 then
    .ok ⟨.datetime64, col.cells.map toDatetimeSerialCell⟩
  else
    match col.dtype with
    | .unsupported => .error ()
    | _ => .ok ⟨.datetime64, col.cells.map toDatetimeGenericCell⟩

/-- `safe_date_conversion` with its `except: return date_series` wrapper. -/
def safe_date_conversion (col : Column) : Column :=
  match safe_date_conversion_body col with
  | .ok r => r
  | .error _ => col

/-! ### "Volume per SVC" scanners (app.py lines 161-188)

Service loop (lines 161-170):
```python
for idx, row in volume_df.iterrows():
    if len(row) >= 2 and pd.notna(row.iloc[0]) and pd.notna(row.iloc[1]):
        service = str(row.iloc[0]).strip()
        try:
            volume = float(row.iloc[1])
            if service not in ['Count of PIECES', 'SVC', 'Total', ''] and volume > 0:
                service_volumes[service] = volume
        except:
            continue
```
Country loop (lines 172-188):
```python
for idx, row in volume_df.iterrows():
    row_data = [str(x) if pd.notna(x) else '' for x in row]
    if len(row_data) > 0 and len(row_data[0]) == 2 and row_data[0].isalpha():
        country = row_data[0]
        total = 0
        for val in row_data[1:]:
            try:
                if val != '' and float(val) > 0:
                    total += float(val)
            except:
                continue
        if total > 0:
            country_volumes[country] = total
```
-/

def excludedServiceLabels : List String := ["Count of PIECES", "SVC", "Total", ""]

/-- `float(row.iloc[1])` on a live (non-NaN-guarded) cell: numbers convert,
strings go through `float(...)`, a `Timestamp` raises `TypeError`. -/
def cellFloat : CellVal → Option ℚ
  | .num q => some q
  | .str s => parseFloat s
  | .dt _ => none
  | .null => none

/-- `len(row_data[0]) == 2 and row_data[0].isalpha()` where `row_data[0]` is
`str(x) if pd.notna(x) else ''`: only an original two-letter alphabetic
string cell passes — `str()` of a number or timestamp always contains a
digit, and `''` has length 0. -/
def isTwoAlpha : CellVal → Bool
  | .str s => s.data.length == 2 && s.data.all Char.isAlpha
  | _ => false

/-- `val != '' and float(val) > 0` for one `val` of `row_data[1:]` (with the
per-value `try/except` skip): an empty entry (NaN) fails the `!= ''` test,
`float(str(x))` recovers a numeric cell exactly, a string goes through
`float(...)`, a stringified `Timestamp` raises `ValueError`. -/
def entryFloat : CellVal → Option ℚ
  | .num q => some q
  | .str s => parseFloat s
  | .dt _ => none
  | .null => none

/-- The entry (key, volume) the service loop records for one row, or `none`
when the row is skipped. -/
def serviceEntry (row : List CellVal) : Option (String × ℚ) :=
  if 2 ≤ row.length ∧ row.getD 0 .null ≠ .null ∧ row.getD 1 .null ≠ .null then
    match cellFloat (row.getD 1 .null) with
    | some volume =>
        let service := pyStrip (pyStrCell (row.getD 0 .null))
        if service ∉ excludedServiceLabels ∧ 0 < volume then some (service, volume)
        else none
    | none => none
  else none

/-- `total`: the sum of the positive parseable values among `row_data[1:]`. -/
def rowTotal (vals : List CellVal) : ℚ :=
  vals.foldl (fun total v =>
    match entryFloat v with
    | some x => if 0 < x then total + x else total
    | none => total) 0

/-- The entry (country, total) the country loop records for one row, or
`none` when the row is skipped. -/
def countryEntry (row : List CellVal) : Option (String × ℚ) :=
  if 0 < row.length ∧ isTwoAlpha (row.getD 0 .null) = true then
    let country := match row.getD 0 .null with
      | .str s => s
      | _ => ""
    let total := rowTotal (row.drop 1)
    if 0 < total then some (country, total) else none
  else none

/-- Python `d[k] = v`: overwrite in place, or append a new key. -/
def upsert (k : String) (v : ℚ) : List (String × ℚ) → List (String × ℚ)
  | [] => [(k, v)]
  | (k', v') :: rest => if k' = k then (k, v) :: rest else (k', v') :: upsert k v rest

def applyEntry (m : List (String × ℚ)) : Option (String × ℚ) → List (String × ℚ)
  | some (k, v) => upsert k v m
  | none => m

/-- The `service_volumes` dictionary built by the first loop. -/
def service_volumes (rows : List (List CellVal)) : List (String × ℚ) :=
  rows.foldl (fun m row => applyEntry m (serviceEntry row)) []

/-- The `country_volumes` dictionary built by the second loop. -/
def country_volumes (rows : List (List CellVal)) : List (String × ℚ) :=
  rows.foldl (fun m row => applyEntry m (countryEntry row)) []

/-! ### Sheets, workbooks and `load_tms_data` (app.py lines 121-220) -/

/-- One parsed `DataFrame` of `pd.read_excel(..., sheet_name=None)`: column
labels plus row-major cells. -/
structure Sheet where
  header : List String
  rows : List (List CellVal)
  deriving DecidableEq

/-- A value of the `data` dictionary: a DataFrame or a processed
volumes dictionary. -/
inductive DataVal where
  | df : Sheet → DataVal
  | vmap : List (String × ℚ) → DataVal
  deriving DecidableEq

abbrev Workbook := List (String × Sheet)

abbrev Data := List (String × DataVal)

/-- `sheet_name in excel_sheets` / `excel_sheets[sheet_name]`. -/
def lookupSheet (name : String) : Workbook → Option Sheet
  | [] => none
  | (n, s) :: rest => if n = name then some s else lookupSheet name rest

/-- `df.columns = names`: pandas raises `ValueError` on a length
mismatch. -/
def setColumns (names : List String) (s : Sheet) : Except Unit Sheet :=
  if names.length = s.header.length then .ok ⟨names, s.rows⟩ else .error ()

/-- The position of a column label, `none` when absent. -/
def colIdx (name : String) : List String → Option Nat
  | [] => none
  | n :: rest => if n = name then some 0 else (colIdx name rest).map (· + 1)

/-- `df[name]` as a list of cells (empty when the column is absent). -/
def colCells (name : String) (s : Sheet) : List CellVal :=
  match colIdx name s.header with
  | some i => s.rows.map (fun r => r.getD i .null)
  | none => []

def setColCells (i : Nat) (cells : List CellVal) (rows : List (List CellVal)) :
    List (List CellVal) :=
  (rows.zip cells).map (fun p => p.1.set i p.2)

/-- `if name in df.columns: df[name] = safe_date_conversion(df[name])`.
The extracted `Series` carries the dtype pandas infers for its cells. -/
def convertDateCol (name : String) (s : Sheet) : Sheet :=
  match colIdx name s.header with
  | none => s
  | some i =>
      let cells := s.rows.map (fun r => r.getD i .null)
      let converted := safe_date_conversion ⟨inferDtype cells, cells⟩
      ⟨s.header, setColCells i converted.cells s.rows⟩

def otpColumnNames : List String :=
  ["TMS_Order", "QDT", "POD_DateTime", "Time_Diff", "Status"]

/-- "OTP POD" processing (lines 134-148): `iloc[:, :5]`, rename to the five
fixed names (raising on fewer than five raw columns), drop rows whose
`TMS_Order` is missing, and date-convert `QDT` and `POD_DateTime`. -/
def processOtp (s : Sheet) : Except Unit Sheet :=
  match setColumns otpColumnNames ⟨s.header.take 5, s.rows.map (fun r => r.take 5)⟩ with
  | .error e => .error e
  | .ok renamed =>
      let dropped : Sheet :=
        ⟨renamed.header, renamed.rows.filter (fun r => decide (r.getD 0 CellVal.null ≠ CellVal.null))⟩
      .ok (convertDateCol ("POD_DateTime") (convertDateCol ("QDT") dropped))

/-- The fixed ordered reference list of 18 semantic cost/sales column
names (lines 201-204). -/
def expected_cols : List String :=
  ["Order_Date", "Account", "Account_Name", "Office", "Order_Num",
   "PU_Cost", "Ship_Cost", "Man_Cost", "Del_Cost", "Total_Cost",
   "Net_Revenue", "Currency", "Diff", "Gross_Percent", "Invoice_Num",
   "Total_Amount", "Status", "PU_Country"]

/-- "cost sales" processing (lines 199-212):
`new_cols = expected_cols[:len(cost_df.columns)]; cost_df.columns = new_cols`
then the `Order_Date` conversion.  The assignment raises when the name list
and the raw column count disagree, i.e. when the sheet has more than 18
columns. -/
def processCostSales (s : Sheet) : Except Unit Sheet :=
  match setColumns (expected_cols.take s.header.length) s with
  | .error e => .error e
  | .ok renamed => .ok (convertDateCol ("Order_Date") renamed)

/-- Block 1 (lines 129-131): `data['raw_data'] = raw_df`. -/
def loadRaw (wb : Workbook) (d : Data) : Data :=
  match lookupSheet ("AMS RAW DATA") wb with
  | some s => d ++ [("raw_data", .df s)]
  | none => d

/-- Block 2 (lines 134-148): `data['otp'] = otp_df`. -/
def loadOtp (wb : Workbook) (d : Data) : Except Unit Data :=
  match lookupSheet ("OTP POD") wb with
  | some s => (processOtp s).map (fun o => d ++ [("otp", .df o)])
  | none => .ok d

/-- Block 3 (lines 151-191): `data['volume_raw']`, `data['service_volumes']`,
`data['country_volumes']`. -/
def loadVolume (wb : Workbook) (d : Data) : Data :=
  match lookupSheet ("Volume per SVC") wb with
  | some s =>
      d ++ [("volume_raw", .df s),
            ("service_volumes", .vmap (service_volumes s.rows)),
            ("country_volumes", .vmap (country_volumes s.rows))]
  | none => d

/-- Block 4 (lines 194-196): `data['lanes'] = lane_df`. -/
def loadLanes (wb : Workbook) (d : Data) : Data :=
  match lookupSheet ("Lane usage ") wb with
  | some s => d ++ [("lanes", .df s)]
  | none => d

/-- Block 5 (lines 199-212): `data['cost_sales'] = cost_df`. -/
def loadCostSales (wb : Workbook) (d : Data) : Except Unit Data :=
  match lookupSheet ("cost sales") wb with
  | some s => (processCostSales s).map (fun c => d ++ [("cost_sales", .df c)])
  | none => .ok d

/-- The `try:` body of `load_tms_data`, blocks 1-5 in program order. -/
def loadBody (wb : Workbook) : Except Unit Data :=
  match loadOtp wb (loadRaw wb []) with
  | .error e => .error e
  | .ok d2 => loadCostSales wb (loadLanes wb (loadVolume wb d2))

/-- `load_tms_data` on a successfully parsed workbook: the
`except Exception` handler displays the error and returns `None`. -/
def load_tms_data (wb : Workbook) : Option Data :=
  match loadBody wb with
  | .ok d => some d
  | .error _ => none

/-! ### Financial aggregation (app.py lines 373-379 and 579-586)

```python
total_revenue = cost_df['Net_Revenue'].sum()

country_financials = cost_df.groupby('PU_Country').agg({
    'Net_Revenue': 'sum', 'Total_Cost': 'sum', 'Gross_Percent': 'mean'}).round(2)
```
Only the `Net_Revenue` column of `country_financials` is modelled: the
claims are about the revenue sums.  `groupby` drops rows whose key is NaN;
`sum` skips NaN values; `.round(2)` is numpy's round-half-to-even at two
decimals. -/

def cellNum : CellVal → ℚ
  | .num q => q
  | _ => 0

/-- `Series.sum()` on a numeric column: NaN values are skipped, the empty
sum is 0. -/
def pandasSum (cells : List CellVal) : ℚ := (cells.map cellNum).sum

/-- `total_revenue = cost_df['Net_Revenue'].sum()` (line 376; 0 when the
column is absent, as in the guarded code). -/
def total_revenue (s : Sheet) : ℚ := pandasSum (colCells ("Net_Revenue") s)

/-- The (key, revenue) pairs of the grouped columns. -/
def revPairs (s : Sheet) : List (CellVal × CellVal) :=
  (colCells ("PU_Country") s).zip (colCells ("Net_Revenue") s)

/-- The group keys of `groupby('PU_Country')`: the distinct non-NaN key
cells.  (`groupby` sorts its keys; the order is irrelevant to every claim,
so first-occurrence order is used.) -/
def groupKeys (ps : List (CellVal × CellVal)) : List CellVal :=
  ((ps.map Prod.fst).filter (fun c => decide (c ≠ CellVal.null))).dedup

def pairVal (p : CellVal × CellVal) : ℚ := cellNum p.2

/-- The un-rounded `Net_Revenue` sum of one group. -/
def groupSum (ps : List (CellVal × CellVal)) (k : CellVal) : ℚ :=
  ((ps.filter (fun p => decide (p.1 = k))).map pairVal).sum

/-- numpy rounding: round half to even. -/
def bankersRound (q : ℚ) : ℤ :=
  let f := ⌊q⌋
  let r := q - f
  if r < 1 / 2 then f
  else if 1 / 2 < r then f + 1
  else if Even f then f else f + 1

/-- `.round(2)` on one value. -/
def round2 (q : ℚ) : ℚ := (bankersRound (q * 100) : ℚ) / 100

/-- The `Net_Revenue` column of `country_financials` (line 579-583): one
rounded revenue sum per group key. -/
def country_financials_net_revenue (s : Sheet) : List (CellVal × ℚ) :=
  (groupKeys (revPairs s)).map (fun k => (k, round2 (groupSum (revPairs s) k)))

/-! ### Concrete inputs used by the counterexamples and witnesses -/

/-- The row `("NL", 3, 4, 0)` of the C2 scenario: a country row whose second
cell is a positive number. -/
def c1RowNL : List CellVal := [.str ("NL"), .num 3, .num 4, .num 0]

/-- A second such row, for the C1 witness. -/
def c1RowDE : List CellVal := [.str ("DE"), .num 2, .num 5, .num 0]

/-- The "Volume per SVC" sheet of the C2 scenario:
rows `("CTX", 5, 0, 0)` and `("NL", 3, 4, 0)`. -/
def c2Sheet : Sheet :=
  ⟨["h1", "h2", "h3", "h4"],
   [[.str ("CTX"), .num 5, .num 0, .num 0],
    [.str ("NL"), .num 3, .num 4, .num 0]]⟩

def c2Wb : Workbook := [("Volume per SVC", c2Sheet)]

/-- A workbook holding only a "Volume per SVC" sheet (C3 counterexample). -/
def c3Wb : Workbook := [("Volume per SVC", ⟨["x", "y"], []⟩)]

/-- A workbook holding only an "AMS RAW DATA" sheet (C3 witness). -/
def c3WbW : Workbook := [("AMS RAW DATA", ⟨["x"], []⟩)]

/-- A "cost sales" sheet with 19 raw columns (C4 counterexample). -/
def c4Sheet19 : Sheet :=
  ⟨["a1", "a2", "a3", "a4", "a5", "a6", "a7", "a8", "a9", "a10",
    "a11", "a12", "a13", "a14", "a15", "a16", "a17", "a18", "a19"], []⟩

def c4Wb19 : Workbook := [("cost sales", c4Sheet19)]

/-- A "cost sales" sheet with 20 raw columns (C4 witness). -/
def c4Sheet20 : Sheet :=
  ⟨["b1", "b2", "b3", "b4", "b5", "b6", "b7", "b8", "b9", "b10",
    "b11", "b12", "b13", "b14", "b15", "b16", "b17", "b18", "b19", "b20"], []⟩

def c4Wb20 : Workbook := [("cost sales", c4Sheet20)]

/-- A processed cost/sales row with the given `PU_Country` (position 17) and
`Net_Revenue` (position 10) cells. -/
def mkCostRow (ctry rev : CellVal) : List CellVal :=
  [.null, .null, .null, .null, .null, .null, .null, .null, .null, .null,
   rev, .null, .null, .null, .null, .null, .null, ctry]

/-- A cost/sales sheet whose single group sum (0.001) is not representable
at two decimals. -/
def c5SheetA : Sheet := ⟨expected_cols, [mkCostRow (.str ("NL")) (.num (1 / 1000))]⟩

/-- A cost/sales sheet with a missing `PU_Country` on a revenue-bearing
row. -/
def c5SheetB : Sheet := ⟨expected_cols, [mkCostRow .null (.num 5)]⟩

/-- A benign cost/sales sheet for the C5 witness. -/
def c5SheetW : Sheet :=
  ⟨expected_cols,
   [mkCostRow (.str ("NL")) (.num 5),
    mkCostRow (.str ("DE")) (.num 3),
    mkCostRow (.str ("NL")) (.num 2)]⟩

/-- An already-normalized datetime column (C7 witness). -/
def c7Col : Column := ⟨.datetime64, [.dt 0, .null, .dt (-25569)]⟩

/-- A three-column cost/sales sheet (C9 witness). -/
def c9SheetA : Sheet := ⟨["a", "b", "c"], [[.num 1, .str ("x"), .null]]⟩

/-- An "OTP POD" sheet with only two raw columns (C10 counterexample). -/
def c10SheetCex : Sheet := ⟨["a", "b"], [[.num 1, .num 2]]⟩

def c10WbCex : Workbook := [("OTP POD", c10SheetCex)]

/-- An "OTP POD" sheet with five raw columns (C10 witness). -/
def c10SheetW : Sheet := ⟨["a", "b", "c", "d", "e"], []⟩

def c10WbW : Workbook := [("OTP POD", c10SheetW)]

/-! ## Theorems

Batteries marks the rational arithmetic operations `@[irreducible]`; they are
unsealed here so that concrete runs of the embedded program evaluate under
`decide`. -/

section MainTheorems

unseal Rat.add Rat.mul Rat.inv Rat.sub

/-! ### Helper lemmas -/

theorem toDatetimeGenericCell_eq_self {c : CellVal} (h : isDtOrNull c = true) :
    toDatetimeGenericCell c = c := by
  cases c with
  | dt t => rfl
  | null => rfl
  | num q => simp [isDtOrNull] at h
  | str s => simp [isDtOrNull] at h

theorem map_toDatetimeGenericCell_eq_self {cells : List CellVal}
    (h : ∀ c ∈ cells, isDtOrNull c = true) :
    cells.map toDatetimeGenericCell = cells :=
  (List.map_congr_left fun c hc => toDatetimeGenericCell_eq_self (h c hc)).trans
    (List.map_id cells)

theorem convertDateCol_header (name : String) (s : Sheet) :
    (convertDateCol name s).header = s.header := by
  unfold convertDateCol
  cases colIdx name s.header <;> rfl

theorem expected_cols_length : expected_cols.length = 18 := rfl

/-! ### C6, C7, C8: date normalization -/

/-- C6: `safe_date_conversion` maps serial value 0 to the calendar date
1899-12-30 and serial value 1 to 1899-12-31, preserving the legacy
spreadsheet epoch exactly (the epoch day count is checked against an
independent day-to-civil conversion). -/
theorem c6_serial_epoch :
    safe_date_conversion ⟨Dtype.int64, [CellVal.num 0, CellVal.num 1]⟩
      = ⟨Dtype.datetime64,
         [CellVal.dt (excelOrigin : ℚ), CellVal.dt ((excelOrigin : ℚ) + 1)]⟩ ∧
    civilFromDays excelOrigin = (1899, 12, 30) ∧
    civilFromDays (excelOrigin + 1) = (1899, 12, 31) := by
  decide

/-- C7: `safe_date_conversion` is idempotent on normalized columns: a column
of datetime dtype (whose cells are therefore timestamps or NaT) is returned
unchanged. -/
theorem c7_idempotent_on_datetime (col : Column)
    (hdt : col.dtype = Dtype.datetime64)
    (hcells : ∀ c ∈ col.cells, isDtOrNull c = true) :
    safe_date_conversion col = col := by
  obtain ⟨dty, cells⟩ := col
  dsimp only at hdt hcells
  subst hdt
  have hstep : safe_date_conversion ⟨Dtype.datetime64, cells⟩
      = ⟨Dtype.datetime64, cells.map toDatetimeGenericCell⟩ := rfl
  rw [hstep, map_toDatetimeGenericCell_eq_self hcells]

/-- Witness for C7 at a concrete normalized datetime column. -/
theorem c7_witness : safe_date_conversion c7Col = c7Col :=
  c7_idempotent_on_datetime c7Col rfl (by decide)

/-- C8: `safe_date_conversion` is total: for every column it either returns
the column unchanged (the `except` fallback on an uninterpretable dtype) or
produces a datetime column in which every cell that could not be converted
is null (every output cell is a timestamp or null). -/
theorem c8_total_coerce_or_unchanged (col : Column) :
    safe_date_conversion col = col ∨
      ((safe_date_conversion col).dtype = Dtype.datetime64 ∧
        ∀ c ∈ (safe_date_conversion col).cells, isDtOrNull c = true) := by
  obtain ⟨dty, cells⟩ := col
  cases dty with
  | unsupported => exact Or.inl rfl
  | int64 =>
      refine Or.inr ⟨rfl, ?_⟩
      have hstep : safe_date_conversion ⟨Dtype.int64, cells⟩
          = ⟨Dtype.datetime64, cells.map toDatetimeSerialCell⟩ := rfl
      rw [hstep]
      intro c hc
      obtain ⟨a, _, rfl⟩ := List.mem_map.mp hc
      cases a <;> rfl
  | float64 =>
      refine Or.inr ⟨rfl, ?_⟩
      have hstep : safe_date_conversion ⟨Dtype.float64, cells⟩
          = ⟨Dtype.datetime64, cells.map toDatetimeSerialCell⟩ := rfl
      rw [hstep]
      intro c hc
      obtain ⟨a, _, rfl⟩ := List.mem_map.mp hc
      cases a <;> rfl
  | datetime64 =>
      refine Or.inr ⟨rfl, ?_⟩
      have hstep : safe_date_conversion ⟨Dtype.datetime64, cells⟩
          = ⟨Dtype.datetime64, cells.map toDatetimeGenericCell⟩ := rfl
      rw [hstep]
      intro c hc
      obtain ⟨a, _, rfl⟩ := List.mem_map.mp hc
      cases a with
      | str s => cases hp : parseDateString s <;> simp [toDatetimeGenericCell, hp, isDtOrNull]
      | num q => rfl
      | dt t => rfl
      | null => rfl
  | object =>
      refine Or.inr ⟨rfl, ?_⟩
      have hstep : safe_date_conversion ⟨Dtype.object, cells⟩
          = ⟨Dtype.datetime64, cells.map toDatetimeGenericCell⟩ := rfl
      rw [hstep]
      intro c hc
      obtain ⟨a, _, rfl⟩ := List.mem_map.mp hc
      cases a with
      | str s => cases hp : parseDateString s <;> simp [toDatetimeGenericCell, hp, isDtOrNull]
      | num q => rfl
      | dt t => rfl
      | null => rfl

/-! ### C1, C2: the volume scanners -/

/-- C1 counterexample: the row `("NL", 3, 4, 0)` is recorded by BOTH loops —
the service loop stores `NL ↦ 3` and the country loop stores `NL ↦ 7` — so a
single row's totals are assigned to keys of both maps, refuting the
service-XOR-country claim. -/
theorem c1_counterexample :
    serviceEntry c1RowNL = some (("NL"), 3) ∧
    countryEntry c1RowNL = some (("NL"), 7) ∧
    service_volumes [c1RowNL] = [("NL", 3)] ∧
    country_volumes [c1RowNL] = [("NL", 7)] := by
  decide

/-- C1 (amended): the two scans are not exclusive, but a row is recorded in
`country_volumes` only when its first cell is a two-letter alphabetic string;
hence only such rows can ever be assigned to both maps, and every other row
contributes to `service_volumes` at most. -/
theorem c1_country_requires_two_alpha (row : List CellVal)
    (hctry : countryEntry row ≠ none) :
    isTwoAlpha (row.getD 0 CellVal.null) = true := by
  unfold countryEntry at hctry
  by_cases h : 0 < row.length ∧ isTwoAlpha (row.getD 0 CellVal.null) = true
  · exact h.2
  · rw [if_neg h] at hctry
    exact absurd rfl hctry

/-- Witness for C1 at the concrete row `("DE", 2, 5, 0)`. -/
theorem c1_witness : isTwoAlpha (c1RowDE.getD 0 CellVal.null) = true :=
  c1_country_requires_two_alpha c1RowDE (by decide)

/-- C2 counterexample: on the claimed sheet the service loop also captures
the `NL` row (its second cell 3 is a positive number), so `service_volumes`
is `{"CTX": 5, "NL": 3}`, not `{"CTX": 5}`. -/
theorem c2_counterexample :
    service_volumes c2Sheet.rows = [("CTX", 5), ("NL", 3)] ∧
    country_volumes c2Sheet.rows = [("NL", 7)] ∧
    service_volumes c2Sheet.rows ≠ [("CTX", 5)] := by
  decide

/-- C2 (amended): the sheet with rows `("CTX", 5, 0, 0)` and `("NL", 3, 4, 0)`
loads to `service_volumes = {"CTX": 5, "NL": 3}` and
`country_volumes = {"NL": 7}` (plus the raw copy under `volume_raw`). -/
theorem c2_volume_scenario :
    load_tms_data c2Wb = some
      [("volume_raw", DataVal.df c2Sheet),
       ("service_volumes", DataVal.vmap [("CTX", 5), ("NL", 3)]),
       ("country_volumes", DataVal.vmap [("NL", 7)])] := by
  decide

/-! ### Key-tracking lemmas for the five load blocks -/

theorem keys_loadRaw (wb : Workbook) (d : Data) (k : String)
    (hk : k ∈ (loadRaw wb d).map Prod.fst) :
    k ∈ d.map Prod.fst ∨ k = "raw_data" := by
  cases h : lookupSheet ("AMS RAW DATA") wb with
  | none =>
      simp only [loadRaw, h] at hk
      exact Or.inl hk
  | some s =>
      simp only [loadRaw, h, List.map_append, List.mem_append, List.map_cons,
        List.map_nil, List.mem_singleton] at hk
      exact hk

theorem keys_loadOtp (wb : Workbook) (d d' : Data)
    (hok : loadOtp wb d = Except.ok d') (k : String)
    (hk : k ∈ d'.map Prod.fst) :
    k ∈ d.map Prod.fst ∨ k = "otp" := by
  cases h : lookupSheet ("OTP POD") wb with
  | none =>
      simp only [loadOtp, h, Except.ok.injEq] at hok
      subst hok
      exact Or.inl hk
  | some s =>
      cases hp : processOtp s with
      | error e => simp [loadOtp, h, hp, Except.map] at hok
      | ok o =>
          simp only [loadOtp, h, hp, Except.map, Except.ok.injEq] at hok
          subst hok
          simp only [List.map_append, List.mem_append, List.map_cons,
            List.map_nil, List.mem_singleton] at hk
          exact hk

theorem keys_loadVolume (wb : Workbook) (d : Data) (k : String)
    (hk : k ∈ (loadVolume wb d).map Prod.fst) :
    k ∈ d.map Prod.fst ∨ k = "volume_raw" ∨ k = "service_volumes" ∨ k = "country_volumes" := by
  cases h : lookupSheet ("Volume per SVC") wb with
  | none =>
      simp only [loadVolume, h] at hk
      exact Or.inl hk
  | some s =>
      simp only [loadVolume, h, List.map_append, List.mem_append, List.map_cons,
        List.map_nil, List.mem_cons, List.mem_singleton, List.not_mem_nil, or_false] at hk
      exact hk

theorem keys_loadLanes (wb : Workbook) (d : Data) (k : String)
    (hk : k ∈ (loadLanes wb d).map Prod.fst) :
    k ∈ d.map Prod.fst ∨ k = "lanes" := by
  cases h : lookupSheet ("Lane usage ") wb with
  | none =>
      simp only [loadLanes, h] at hk
      exact Or.inl hk
  | some s =>
      simp only [loadLanes, h, List.map_append, List.mem_append, List.map_cons,
        List.map_nil, List.mem_singleton] at hk
      exact hk

theorem keys_loadCostSales (wb : Workbook) (d d' : Data)
    (hok : loadCostSales wb d = Except.ok d') (k : String)
    (hk : k ∈ d'.map Prod.fst) :
    k ∈ d.map Prod.fst ∨ k = "cost_sales" := by
  cases h : lookupSheet ("cost sales") wb with
  | none =>
      simp only [loadCostSales, h, Except.ok.injEq] at hok
      subst hok
      exact Or.inl hk
  | some s =>
      cases hp : processCostSales s with
      | error e => simp [loadCostSales, h, hp, Except.map] at hok
      | ok c =>
          simp only [loadCostSales, h, hp, Except.map, Except.ok.injEq] at hok
          subst hok
          simp only [List.map_append, List.mem_append, List.map_cons,
            List.map_nil, List.mem_singleton] at hk
          exact hk

/-! ### C3: the keys of the returned dataset mapping -/

/-- C3 counterexample: a workbook holding only a "Volume per SVC" sheet loads
successfully, and the result carries the key `volume_raw`, which is not one
of the six logical dataset names of the claim. -/
theorem c3_counterexample :
    load_tms_data c3Wb = some
      [("volume_raw", DataVal.df ⟨["x", "y"], []⟩),
       ("service_volumes", DataVal.vmap []),
       ("country_volumes", DataVal.vmap [])] ∧
    ("volume_raw" : String) ∉ ["raw_data", "otp", "service_volumes",
      "country_volumes", "lanes", "cost_sales"] := by
  decide

/-- C3 (amended): every key of a successfully loaded dataset mapping is one
of the SEVEN names `raw_data`, `otp`, `volume_raw`, `service_volumes`,
`country_volumes`, `lanes`, `cost_sales`. -/
theorem c3_keys_subset (wb : Workbook) (d : Data)
    (h : load_tms_data wb = some d) :
    d.map Prod.fst ⊆ ["raw_data", "otp", "volume_raw", "service_volumes",
      "country_volumes", "lanes", "cost_sales"] := by
  intro k hk
  have hb : loadBody wb = Except.ok d := by
    cases hb2 : loadBody wb with
    | ok d0 =>
        simp only [load_tms_data, hb2, Option.some.injEq] at h
        subst h
        rfl
    | error e => simp [load_tms_data, hb2] at h
  cases ho : loadOtp wb (loadRaw wb []) with
  | error e => simp [loadBody, ho] at hb
  | ok d2 =>
      simp only [loadBody, ho] at hb
      rcases keys_loadCostSales wb _ d hb k hk with h5 | h5
      · rcases keys_loadLanes wb _ k h5 with h4 | h4
        · rcases keys_loadVolume wb _ k h4 with h3 | h3 | h3 | h3
          · rcases keys_loadOtp wb _ d2 ho k h3 with h2 | h2
            · rcases keys_loadRaw wb [] k h2 with h1 | h1
              · simp at h1
              · simp [h1]
            · simp [h2]
          · simp [h3]
          · simp [h3]
          · simp [h3]
        · simp [h4]
      · simp [h5]

/-- Witness for C3 at a workbook holding only an "AMS RAW DATA" sheet. -/
theorem c3_witness :
    ("raw_data" : String) ∈ ["raw_data", "otp", "volume_raw", "service_volumes",
      "country_volumes", "lanes", "cost_sales"] :=
  c3_keys_subset c3WbW [("raw_data", DataVal.df ⟨["x"], []⟩)] (by decide) (by decide)

/-! ### C4, C9: cost/sales column normalization -/

/-- C4 counterexample: a workbook whose "cost sales" sheet has 19 raw columns
does NOT load: the column-name assignment fails (length mismatch) and the
whole load aborts with `None` instead of truncating and completing. -/
theorem c4_counterexample :
    load_tms_data c4Wb19 = none ∧
    processCostSales c4Sheet19 = Except.error () := by
  decide

/-- C4 (amended): for every workbook whose "cost sales" sheet has more than
18 raw columns, the 18 truncated reference names mismatch the column count,
the assignment raises, and `load_tms_data` returns no data at all (the
whole load aborts). -/
theorem c4_overflow_aborts (wb : Workbook) (s : Sheet)
    (hfind : lookupSheet ("cost sales") wb = some s)
    (hlen : 18 < s.header.length) :
    load_tms_data wb = none := by
  have hpcs : processCostSales s = Except.error () := by
    have hset : setColumns (expected_cols.take s.header.length) s = Except.error () := by
      unfold setColumns
      rw [if_neg]
      intro hcontra
      rw [List.length_take, expected_cols_length] at hcontra
      have hle := Nat.min_le_right s.header.length 18
      omega
    simp only [processCostSales, hset]
  have hlcs : ∀ dx : Data, loadCostSales wb dx = Except.error () := by
    intro dx
    simp only [loadCostSales, hfind, hpcs, Except.map]
  cases ho : loadOtp wb (loadRaw wb []) with
  | error e => simp [load_tms_data, loadBody, ho]
  | ok d2 => simp [load_tms_data, loadBody, ho, hlcs]

/-- Witness for C4 at a concrete 20-column "cost sales" sheet. -/
theorem c4_witness : load_tms_data c4Wb20 = none :=
  c4_overflow_aborts c4Wb20 c4Sheet20 (by decide) (by decide)

/-- C9: for every "cost sales" sheet with fewer than 18 raw columns the
renaming never raises: processing succeeds and assigns exactly
`min(number of raw columns, 18)` column names. -/
theorem c9_short_sheet_ok (s : Sheet) (h : s.header.length < 18) :
    processCostSales s =
      Except.ok (convertDateCol ("Order_Date") ⟨expected_cols.take s.header.length, s.rows⟩) ∧
    (convertDateCol ("Order_Date")
        ⟨expected_cols.take s.header.length, s.rows⟩).header.length
      = min s.header.length 18 := by
  have hlen : (expected_cols.take s.header.length).length = s.header.length := by
    rw [List.length_take, expected_cols_length]
    exact Nat.min_eq_left (Nat.le_of_lt h)
  constructor
  · have hset : setColumns (expected_cols.take s.header.length) s
        = Except.ok ⟨expected_cols.take s.header.length, s.rows⟩ := by
      unfold setColumns
      rw [if_pos hlen]
    simp only [processCostSales, hset]
  · rw [convertDateCol_header]
    dsimp only
    rw [List.length_take, expected_cols_length]

/-- Witness for C9 at a concrete three-column sheet. -/
theorem c9_witness :
    processCostSales c9SheetA =
      Except.ok (convertDateCol ("Order_Date")
        ⟨expected_cols.take c9SheetA.header.length, c9SheetA.rows⟩) ∧
    (convertDateCol ("Order_Date")
        ⟨expected_cols.take c9SheetA.header.length, c9SheetA.rows⟩).header.length
      = min c9SheetA.header.length 18 :=
  c9_short_sheet_ok c9SheetA (by decide)

/-! ### C10: the missing-sheet scenario -/

/-- C10 counterexample: a workbook in which only "OTP POD" is present but the
sheet has just two raw columns makes the five-name assignment raise, so
`load_tms_data` returns `None` — not a mapping containing `otp`. -/
theorem c10_counterexample :
    load_tms_data c10WbCex = none ∧
    processOtp c10SheetCex = Except.error () := by
  decide

/-- C10 (amended): for every workbook in which only "OTP POD" is present and
that sheet has at least 5 raw columns, the load succeeds and the resulting
mapping contains exactly the key `otp` (no `raw_data`, `volume_raw`,
`service_volumes`, `country_volumes`, `lanes` or `cost_sales`). -/
theorem c10_only_otp (wb : Workbook) (s : Sheet)
    (hotp : lookupSheet ("OTP POD") wb = some s)
    (hraw : lookupSheet ("AMS RAW DATA") wb = none)
    (hvol : lookupSheet ("Volume per SVC") wb = none)
    (hlane : lookupSheet ("Lane usage ") wb = none)
    (hcost : lookupSheet ("cost sales") wb = none)
    (hlen : 5 ≤ s.header.length) :
    (load_tms_data wb).map (fun d => d.map Prod.fst) = some ["otp"] := by
  have hset : setColumns otpColumnNames ⟨s.header.take 5, s.rows.map (fun r => r.take 5)⟩
      = Except.ok ⟨otpColumnNames, s.rows.map (fun r => r.take 5)⟩ := by
    unfold setColumns
    rw [if_pos]
    dsimp only
    rw [List.length_take, Nat.min_eq_left hlen]
    rfl
  obtain ⟨T, hT⟩ : ∃ T, processOtp s = Except.ok T := by
    unfold processOtp
    rw [hset]
    exact ⟨_, rfl⟩
  simp only [load_tms_data, loadBody, loadRaw, loadOtp, loadVolume, loadLanes,
    loadCostSales, hotp, hraw, hvol, hlane, hcost, hT, Except.map]
  rfl

/-- Witness for C10 at a concrete five-column "OTP POD"-only workbook. -/
theorem c10_witness :
    (load_tms_data c10WbW).map (fun d => d.map Prod.fst) = some ["otp"] :=
  c10_only_otp c10WbW c10SheetW (by decide) (by decide) (by decide) (by decide)
    (by decide) (by decide)

/-! ### C5: the revenue aggregation is a partition (up to rounding) -/

theorem round2_eq_self {q : ℚ} (h : (q * 100).den = 1) : round2 q = q := by
  have h1 : ((q * 100).num : ℚ) = q * 100 := (Rat.den_eq_one_iff _).mp h
  have h2 : bankersRound (q * 100) = (q * 100).num := by
    unfold bankersRound
    rw [← h1, Int.floor_intCast]
    simp only [sub_self]
    rw [if_pos (by norm_num : (0 : ℚ) < 1 / 2)]
    exact Rat.num_intCast _
  unfold round2
  rw [h2, h1]
  exact mul_div_cancel_right₀ q (by norm_num)

theorem sum_filter_split (ps : List (CellVal × CellVal)) (k : CellVal) :
    ((ps.filter (fun p => decide (p.1 = k))).map pairVal).sum
      + ((ps.filter (fun p => !decide (p.1 = k))).map pairVal).sum
      = (ps.map pairVal).sum := by
  rw [← List.sum_append, ← List.map_append]
  exact List.Perm.sum_eq (List.Perm.map pairVal (List.filter_append_perm _ ps))

/-- Summing the per-group sums over any duplicate-free list of keys covering
every row's key recovers the un-grouped total: grouping is a partition. -/
theorem sum_groupSum_eq : ∀ (K : List CellVal) (ps : List (CellVal × CellVal)),
    K.Nodup → (∀ p ∈ ps, p.1 ∈ K) →
    (K.map (groupSum ps)).sum = (ps.map pairVal).sum := by
  intro K
  induction K with
  | nil =>
      intro ps _ hcov
      cases ps with
      | nil => simp
      | cons p ps2 => exact absurd (hcov p (List.mem_cons_self p ps2)) (List.not_mem_nil _)
  | cons k K ih =>
      intro ps hnd hcov
      have hk : k ∉ K := (List.nodup_cons.mp hnd).1
      have hnd2 : K.Nodup := (List.nodup_cons.mp hnd).2
      have hcov2 : ∀ p ∈ ps.filter (fun p => !decide (p.1 = k)), p.1 ∈ K := by
        intro p hp
        have hmem := List.mem_filter.mp hp
        have hne : ¬(p.1 = k) := by
          have h2 := hmem.2
          simp only [Bool.not_eq_true', decide_eq_false_iff_not] at h2
          exact h2
        rcases List.mem_cons.mp (hcov p hmem.1) with h1 | h1
        · exact absurd h1 hne
        · exact h1
      have hgs : ∀ k2 ∈ K,
          groupSum ps k2 = groupSum (ps.filter (fun p => !decide (p.1 = k))) k2 := by
        intro k2 hk2
        have hne : k2 ≠ k := fun he => hk (he ▸ hk2)
        unfold groupSum
        rw [List.filter_filter]
        congr 1
        congr 1
        apply List.filter_congr
        intro p _
        by_cases hp : p.1 = k2
        · simp [hp, hne]
        · simp [hp]
      calc ((k :: K).map (groupSum ps)).sum
          = groupSum ps k + (K.map (groupSum ps)).sum := by simp
        _ = groupSum ps k
            + (K.map (groupSum (ps.filter (fun p => !decide (p.1 = k))))).sum := by
              rw [List.map_congr_left hgs]
        _ = groupSum ps k
            + ((ps.filter (fun p => !decide (p.1 = k))).map pairVal).sum := by
              rw [ih _ hnd2 hcov2]
        _ = (ps.map pairVal).sum := by
              have hsp := sum_filter_split ps k
              unfold groupSum
              linarith

theorem colIdx_of_mem {name : String} : ∀ {l : List String}, name ∈ l →
    ∃ i, colIdx name l = some i := by
  intro l h
  induction l with
  | nil => cases h
  | cons n rest ih =>
      unfold colIdx
      by_cases he : n = name
      · exact ⟨0, by rw [if_pos he]⟩
      · rcases List.mem_cons.mp h with h1 | h1
        · exact absurd h1.symm he
        · obtain ⟨i, hi⟩ := ih h1
          exact ⟨i + 1, by rw [if_neg he, hi]; rfl⟩

theorem colCells_length_le (name : String) (s : Sheet) :
    (colCells name s).length ≤ s.rows.length := by
  unfold colCells
  cases colIdx name s.header with
  | some i => simp
  | none => simp

theorem colCells_length_of_mem {name : String} {s : Sheet} (h : name ∈ s.header) :
    (colCells name s).length = s.rows.length := by
  obtain ⟨i, hi⟩ := colIdx_of_mem h
  unfold colCells
  rw [hi]
  simp

/-- C5 counterexample: the grouped revenue totals do NOT always equal the
un-grouped total.  Sheet A has one row (`PU_Country = "NL"`,
`Net_Revenue = 0.001`): its group sum is rounded to two decimals, so the
grouped total is 0 while the row total is 0.001.  Sheet B has one row with a
missing `PU_Country` and revenue 5: `groupby` drops the null-keyed row, so
the grouped total is 0 while the row total is 5. -/
theorem c5_counterexample :
    ((country_financials_net_revenue c5SheetA).map Prod.snd).sum ≠ total_revenue c5SheetA ∧
    ((country_financials_net_revenue c5SheetB).map Prod.snd).sum ≠ total_revenue c5SheetB := by
  decide

/-- C5 (amended): for every cost/sales sheet that has a `PU_Country` column
with no missing keys, and in which each group's revenue sum is exactly
representable at two decimals (so the `.round(2)` is the identity on it),
the sum of the per-group `Net_Revenue` sums equals the un-grouped
`Net_Revenue` total: the grouping is a partition, with no double counting
or loss. -/
theorem c5_grouped_revenue_partition (s : Sheet)
    (hpc : ("PU_Country" : String) ∈ s.header)
    (hkeys : ∀ c ∈ colCells ("PU_Country") s, c ≠ CellVal.null)
    (hexact : ∀ k ∈ groupKeys (revPairs s), (groupSum (revPairs s) k * 100).den = 1) :
    ((country_financials_net_revenue s).map Prod.snd).sum = total_revenue s := by
  unfold country_financials_net_revenue
  rw [List.map_map]
  have h1 : (groupKeys (revPairs s)).map
        (Prod.snd ∘ fun k => (k, round2 (groupSum (revPairs s) k)))
      = (groupKeys (revPairs s)).map (groupSum (revPairs s)) := by
    apply List.map_congr_left
    intro k hk
    simp only [Function.comp]
    exact round2_eq_self (hexact k hk)
  rw [h1]
  have hcover : ∀ p ∈ revPairs s, p.1 ∈ groupKeys (revPairs s) := by
    intro p hp
    apply List.mem_dedup.mpr
    apply List.mem_filter.mpr
    refine ⟨List.mem_map_of_mem Prod.fst hp, ?_⟩
    obtain ⟨a, b⟩ := p
    have hmem := (List.of_mem_zip hp).1
    exact decide_eq_true (hkeys a hmem)
  rw [sum_groupSum_eq (groupKeys (revPairs s)) (revPairs s) (List.nodup_dedup _) hcover]
  have h2 : (revPairs s).map Prod.snd = colCells ("Net_Revenue") s := by
    unfold revPairs
    apply List.map_snd_zip
    calc (colCells ("Net_Revenue") s).length
        ≤ s.rows.length := colCells_length_le _ _
      _ = (colCells ("PU_Country") s).length := (colCells_length_of_mem hpc).symm
  have h3 : (revPairs s).map pairVal = ((revPairs s).map Prod.snd).map cellNum := by
    rw [List.map_map]
    exact List.map_congr_left (fun p _ => rfl)
  rw [h3, h2]
  rfl

/-- Witness for C5 at a concrete three-row cost/sales sheet
(NL: 5 + 2, DE: 3; total 10). -/
theorem c5_witness :
    ((country_financials_net_revenue c5SheetW).map Prod.snd).sum = total_revenue c5SheetW :=
  c5_grouped_revenue_partition c5SheetW (by decide) (by decide) (by decide)

end MainTheorems

end TMS
